import Mathlib

/-!
Verification of the NovaAI flux-debug proxy server against its
natural-language specification.  The repository holds several variants of
the same Express server:

* `server.js` (variant 1, lines 1-248): the Flux 1.1 Pro proxy with
  `stripDataHeader`, `pickB`, `buildFluxInputs`, `createPrediction`,
  `waitPrediction` and the `/api/generate` handler;
* `server.js` (variant 2, lines 249-362): the SeedEdit 3.0 / Flux Schnell
  fallback server;
* `src/unnamed/part_000`: a compact Flux-only variant (`build`, `replicate`);
* `src/unnamed/part_001`: the SDXL img2img debug variant.

Strings are modelled as lists of characters, JavaScript numbers that carry
strength/guidance values as rationals, absent (`undefined`) fields as
`Option`.  Network effects are modelled by passing the upstream's responses
in explicitly (`V1Up`, `Gen2Up`, a polling function `Nat → PredResp`) and
counting the network calls the handler makes.
-/

abbrev Str := List Char

/-- Coerce a Lean string literal to the `List Char` model. -/
def str (s : String) : Str := s.data

/-- JavaScript `a || b` on strings: the empty string is falsy. -/
def jsOr (a b : Str) : Str := if a = [] then b else a

/-- JavaScript `String.prototype.toLowerCase` restricted to the ASCII range
used by the operation tags. -/
def jsToLower (s : Str) : Str := s.map Char.toLower

/-- `server.js` `hasSomething`: a string is "something" when it is nonempty. -/
def hasSomething (v : Str) : Bool := !v.isEmpty

/-- The data-URL prefix tested by `stripDataHeader` (`server.js:38`). -/
def dataHeader : Str := str "data:image/"

/-- The base64 marker searched for by `stripDataHeader` (`server.js:39`). -/
def b64marker : Str := str "base64,"

/-- JavaScript `String.prototype.indexOf` for a pattern: index of the first
occurrence of `pat` as a contiguous substring, `none` when there is none. -/
def idxOfSub (pat : Str) : Str → Option Nat
  | [] => if pat.isPrefixOf ([] : Str) then some 0 else none
  | c :: t =>
    if pat.isPrefixOf (c :: t) then some 0
    else (idxOfSub pat t).map (· + 1)

/-- `server.js:36-43` `stripDataHeader`: if the string starts with
`data:image/` and contains `base64,`, drop everything through the marker;
otherwise return the string unchanged (empty input yields empty output). -/
def stripDataHeader (s : Str) : Str :=
  if s = [] then []
  else if dataHeader.isPrefixOf s then
    match idxOfSub b64marker s with
    | some idx => s.drop (idx + b64marker.length)
    | none => s
  else s

/-- `server.js:45-53` `pickB`: first truthy among the B-image aliases,
then `stripDataHeader`. -/
def pickB (image_base64 image image_b64 b64 : Option Str) : Str :=
  stripDataHeader
    (jsOr (image_base64.getD [])
      (jsOr (image.getD [])
        (jsOr (image_b64.getD []) (b64.getD []))))

/-- The `params` object of a variant-1 request body; `none` models a field
that is absent or not a number. -/
structure Params where
  strength : Option ℚ
  param_strength : Option ℚ
  guidance_scale : Option ℚ
  guidance : Option ℚ
  seed : Option Int
  width : Option Int
  height : Option Int
deriving DecidableEq

/-- The request body of variant 1's `/api/generate`. -/
structure Body where
  op : Option Str
  prompt : Option Str
  negative : Option Str
  ref : Option Str
  image_base64 : Option Str
  image : Option Str
  image_b64 : Option Str
  b64 : Option Str
  params : Option Params
deriving DecidableEq

/-- The `inputs` object assembled by `buildFluxInputs`; `none` models a key
deleted by the `undefined` cleanup (`server.js:126`). -/
structure FluxInputs where
  prompt : Str
  negative_prompt : Option Str
  image : Option Str
  strength : ℚ
  guidance : ℚ
  seed : Option Int
  width : Option Int
  height : Option Int
  ip_adapter_image : Option Str
  reference_image : Option Str
deriving DecidableEq

/-- The full return value of `buildFluxInputs` (`server.js:127`). -/
structure BuildResult where
  inputs : FluxInputs
  op : Str
  b64len : Nat
  hasRef : Bool
deriving DecidableEq

/-- A `params` object with every field absent. -/
def emptyParams : Params :=
  { strength := none, param_strength := none, guidance_scale := none,
    guidance := none, seed := none, width := none, height := none }

/-- `server.js:67-128` `buildFluxInputs`, the request normalizer of
variant 1. -/
def buildFluxInputs (body : Body) : BuildResult :=
  let op := jsToLower (body.op.getD [])
  let prompt := body.prompt.getD []
  let negative := body.negative.getD []
  let b64 := pickB body.image_base64 body.image body.image_b64 body.b64
  let imageDataUrl :=
    if hasSomething b64 then some (str "data:image/png;base64," ++ b64) else none
  let ref :=
    if hasSomething (body.ref.getD []) then some (body.ref.getD []) else none
  let p := body.params.getD emptyParams
  let strength0 := p.strength.getD (p.param_strength.getD (7 / 20))
  let guidance0 := p.guidance_scale.getD (p.guidance.getD (9 / 2))
  let strength := if op = str "qa-useb" then 0 else strength0
  let guidance :=
    if op = str "qa-useb" ∧ p.guidance_scale = none ∧ p.guidance = none then 5
    else guidance0
  { inputs :=
      { prompt := prompt
        negative_prompt := if negative = [] then none else some negative
        image := imageDataUrl
        strength := strength
        guidance := guidance
        seed := p.seed
        width := p.width
        height := p.height
        ip_adapter_image := ref
        reference_image := ref }
    op := op
    b64len := b64.length
    hasRef := ref.isSome }

/-- The job status strings the handlers compare against; any other status
string ("starting", "processing", ...) is `running`. -/
inductive JStatus
  | succeeded
  | failed
  | canceled
  | running
deriving DecidableEq

/-- The shape of the upstream `output` field: an array of references, a
single string reference, or anything else (null / missing / object). -/
inductive JsOut
  | arr (xs : List Str)
  | strv (s : Str)
  | nullv
deriving DecidableEq

/-- One polled prediction object: its status, output, error detail, id. -/
structure PredResp where
  status : JStatus
  output : JsOut
  error : Option Str
  id : Str
deriving DecidableEq

/-- The statuses `waitPrediction` (`server.js:164`) treats as terminal. -/
def isTerminalStatus : JStatus → Bool
  | .succeeded => true
  | .failed => true
  | .canceled => true
  | .running => false

/-- Output classification of variant 1 (`server.js:223-225`) and of
`part_001` (lines 104-106): first element of a non-empty array, a string
itself, otherwise nothing. -/
def v1Classify : JsOut → Option Str
  | .arr (x :: _) => some x
  | .arr [] => none
  | .strv s => some s
  | .nullv => none

/-- Output normalization of variant 2 (`server.js:327`) and of `part_000`
(line 51): `Array.isArray(out) ? out[0] : out`. -/
def firstOut : JsOut → Option Str
  | .arr xs => xs.head?
  | .strv s => some s
  | .nullv => none

/-- The polling loop shared by `waitPrediction` (`server.js:156-171`) and
`part_000`'s `replicate` (lines 46-54): up to `fuel` iterations, each
sleeping 1500 ms and then polling once; stop at the first response
satisfying `term`.  Returns the stopping response (or `none` when the fuel
runs out), the number of polls made and the milliseconds slept. -/
def pollLoop (term : PredResp → Bool) (poll : Nat → PredResp) (i : Nat) :
    Nat → Option PredResp × Nat × Nat
  | 0 => (none, 0, 0)
  | fuel + 1 =>
    if term (poll i) then (some (poll i), 1, 1500)
    else
      let r := pollLoop term poll (i + 1) fuel
      (r.1, r.2.1 + 1, r.2.2 + 1500)

/-- `server.js:156-171` `waitPrediction`: poll up to 80 times every 1500 ms
until a terminal status; `none` models the thrown 504 timeout error. -/
def waitPrediction (poll : Nat → PredResp) : Option PredResp × Nat × Nat :=
  pollLoop (fun r => isTerminalStatus r.status) poll 0 80

/-- `part_000` lines 46-54: the same loop, but only `succeeded` stops it. -/
def p000wait (poll : Nat → PredResp) : Option PredResp × Nat × Nat :=
  pollLoop (fun r => r.status == JStatus.succeeded) poll 0 80

/-- The JSON response of variant 1's `/api/generate`, with the HTTP status. -/
structure V1Resp where
  status : Nat
  ok : Bool
  image_url : Option Str
  replicate_id : Option Str
  error : Option Str
  warning : Option Str
deriving DecidableEq

/-- The upstream's behaviour as seen by one variant-1 request: whether the
create call succeeds, its HTTP status when it fails, the polling URL of the
created prediction, and the sequence of polled responses. -/
structure V1Up where
  createOk : Bool
  createStatus : Nat
  getUrl : Option Str
  poll : Nat → PredResp

/-- `server.js:188`: the guard rejecting an AB operation without A. -/
def v1GuardA (r : BuildResult) : Bool :=
  (r.op == str "qa-replace" || r.op == str "qa-overlay" ||
    r.op == str "qa-insert") && !r.hasRef

/-- `server.js:195`: the guard rejecting `qa-useb` without B. -/
def v1GuardB (r : BuildResult) : Bool :=
  r.op == str "qa-useb" && r.b64len == 0

/-- `server.js:189-194`: the 400 response for a missing A image. -/
def v1MissingAResp : V1Resp :=
  { status := 400, ok := false, image_url := none, replicate_id := none,
    error := none,
    warning := some (str "Missing A for AB operation; would fall back to txt2img.") }

/-- `server.js:196-201`: the 400 response for a missing B image. -/
def v1MissingBResp : V1Resp :=
  { status := 400, ok := false, image_url := none, replicate_id := none,
    error := none, warning := some (str "Missing B for use only B.") }

/-- `server.js:131-135` with the catch at 234-241: the 401 response when
the upstream credential is absent. -/
def v1TokenMissingResp : V1Resp :=
  { status := 401, ok := false, image_url := none, replicate_id := none,
    error := some (str "REPLICATE_API_TOKEN missing"), warning := none }

/-- `server.js:146-151` with the catch: the response when the create call
fails with some HTTP status (`err.code || 500`). -/
def v1CreateErrorResp (status : Nat) : V1Resp :=
  { status := if status = 0 then 500 else status, ok := false,
    image_url := none, replicate_id := none,
    error := some (str "Replicate create error"), warning := none }

/-- `server.js:206-208`: the 502 response when no polling URL came back. -/
def v1NoPollUrlResp : V1Resp :=
  { status := 502, ok := false, image_url := none, replicate_id := none,
    error := none, warning := some (str "No polling URL from Replicate") }

/-- `server.js:168-170` with the catch: the 504 polling-timeout response. -/
def v1TimeoutResp : V1Resp :=
  { status := 504, ok := false, image_url := none, replicate_id := none,
    error := some (str "Timeout waiting prediction"), warning := none }

/-- `server.js:211-220`: the 502 response for a terminal non-succeeded job. -/
def v1FailedResp (d : PredResp) : V1Resp :=
  { status := 502, ok := false, image_url := none, replicate_id := none,
    error := d.error, warning := none }

/-- `server.js:227-233`: the 200 response for a succeeded job. -/
def v1SuccessResp (d : PredResp) : V1Resp :=
  { status := 200, ok := true, image_url := v1Classify d.output,
    replicate_id := some d.id, error := none, warning := none }

/-- `server.js:182-242`: variant 1's `/api/generate` handler.  Returns the
HTTP response and the number of upstream network calls made (one create
call plus one call per poll). -/
def generateV1 (token : Str) (body : Body) (up : V1Up) : V1Resp × Nat :=
  let r := buildFluxInputs body
  if v1GuardA r then (v1MissingAResp, 0)
  else if v1GuardB r then (v1MissingBResp, 0)
  else if token = [] then (v1TokenMissingResp, 0)
  else if !up.createOk then (v1CreateErrorResp up.createStatus, 1)
  else
    match up.getUrl with
    | none => (v1NoPollUrlResp, 1)
    | some _ =>
      match waitPrediction up.poll with
      | (none, n, _) => (v1TimeoutResp, 1 + n)
      | (some d, n, _) =>
        if d.status = JStatus.succeeded then (v1SuccessResp d, 1 + n)
        else (v1FailedResp d, 1 + n)

/-- The request body of variant 2's `/api/generate` (`server.js:303-311`):
JSON fields plus an optional uploaded file (mimetype and base64 payload). -/
structure Req2 where
  ref : Option Str
  prompt : Option Str
  negative : Option Str
  fileMimetype : Option Str
  fileB64 : Option Str
deriving DecidableEq

/-- `server.js:307-311`: the input image is the uploaded file rendered as a
data URL when present, otherwise the (truthy) `ref` field. -/
def v2InputImage (r : Req2) : Option Str :=
  match r.fileMimetype, r.fileB64 with
  | some m, some b => some (str "data:" ++ m ++ str ";base64," ++ b)
  | _, _ => if r.ref.getD [] = [] then none else some (r.ref.getD [])

/-- The outcome of one `replicate.run` call: a returned output value, or a
thrown exception with its message. -/
inductive RunResult
  | ok (out : JsOut)
  | exn (msg : Str)
deriving DecidableEq

/-- The upstream's behaviour for one variant-2 request: what each engine's
`replicate.run` does when attempted. -/
structure Gen2Up where
  seededit : RunResult
  flux : RunResult
deriving DecidableEq

/-- The JSON response of variant 2's `/api/generate`, with the HTTP status. -/
structure Resp2 where
  status : Nat
  ok : Bool
  engine : Option Str
  image : Option Str
  msg : Option Str
deriving DecidableEq

/-- `server.js:299-301`: the 401 response for a missing credential. -/
def v2TokenResp : Resp2 :=
  { status := 401, ok := false, engine := none, image := none,
    msg := some (str "Missing REPLICATE_API_TOKEN") }

/-- `server.js:312-314`: the 400 response for a missing input image. -/
def v2MissingImageResp : Resp2 :=
  { status := 400, ok := false, engine := none, image := none,
    msg := some (str "Missing input image (ref or file)") }

/-- `server.js:326-328` and 342-343: the 200 response naming the engine
that completed, with `out[0]` when the output was an array. -/
def v2SuccessResp (engine : Str) (image : Option Str) : Resp2 :=
  { status := 200, ok := true, engine := some engine, image := image,
    msg := none }

/-- The fixed message of `server.js:349-352`. -/
def v2AllFailedMsg : Str :=
  str "All engines failed (SeedEdit and Flux). Check token, inputs or model availability."

/-- `server.js:348-352`: the 422 response when both engines threw. -/
def v2AllFailedResp : Resp2 :=
  { status := 422, ok := false, engine := none, image := none,
    msg := some v2AllFailedMsg }

/-- `server.js:297-357`: variant 2's `/api/generate` handler.  Returns the
HTTP response and the number of engine attempts (`replicate.run` calls)
made: SeedEdit 3.0 first, Flux Schnell only if SeedEdit threw. -/
def generateV2 (token : Str) (req : Req2) (up : Gen2Up) : Resp2 × Nat :=
  if token = [] then (v2TokenResp, 0)
  else
    match v2InputImage req with
    | none => (v2MissingImageResp, 0)
    | some _ =>
      match up.seededit with
      | .ok out => (v2SuccessResp (str "seededit-3.0") (firstOut out), 1)
      | .exn _ =>
        match up.flux with
        | .ok out2 => (v2SuccessResp (str "flux-schnell") (firstOut out2), 2)
        | .exn _ => (v2AllFailedResp, 2)

/-- The inputs built by `part_000`'s `build` (lines 19-36). -/
structure P000Inputs where
  prompt : Str
  image : Option Str
  strength : ℚ
  guidance : ℚ
  ip_adapter_image : Option Str
  reference_image : Option Str
  width : Int
  height : Int
deriving DecidableEq

/-- JavaScript `a || b` where `a` is a possibly-absent number and 0 is
falsy (`part_000` lines 33-34). -/
def jsOrInt (a : Option Int) (b : Int) : Int :=
  match a with
  | some x => if x = 0 then b else x
  | none => b

/-- `part_000` lines 19-36 `build`: `A`/`B` are the already-fetched data
URLs of `ref_url`/`image_url` (empty when the field was absent). -/
def p000build (op : Option Str) (prompt : Option Str) (A B : Str)
    (w h : Option Int) : P000Inputs :=
  { prompt := prompt.getD []
    image := if B = [] then none else some B
    strength := if op.getD [] = str "qa-onlyB" then 0 else 7 / 20
    guidance := if op.getD [] = str "qa-onlyB" then 5 else 9 / 2
    ip_adapter_image := if A = [] then none else some A
    reference_image := if A = [] then none else some A
    width := jsOrInt w 1024
    height := jsOrInt h 1024 }

/-- The JSON response of `part_000`'s `/api/generate` (lines 58-66): on
success `{image_url: out}`, on any thrown error `{error: true}` — both
with HTTP status 200. -/
structure P000Resp where
  status : Nat
  image_url : Option Str
  error : Bool
deriving DecidableEq

/-- `part_000` lines 58-66: the handler around `replicate`.  Returns the
response and the number of polls made (the create call is not counted). -/
def p000generate (poll : Nat → PredResp) : P000Resp × Nat :=
  match p000wait poll with
  | (some d, n, _) => ({ status := 200, image_url := firstOut d.output, error := false }, n)
  | (none, n, _) => ({ status := 200, image_url := none, error := true }, n)

/-- The default negative prompt `part_001` synthesizes (line 74) when the
request supplies none. -/
def p001DefaultNegative : Str :=
  str "cartoon, cgi, blurry, halo, mismatch, low quality"

/-- `part_001` line 74: destructuring default for the `negative` param. -/
def p001Negative (negative : Option Str) : Str :=
  negative.getD p001DefaultNegative

/-- The JSON response of `part_001`'s success path (lines 104-110). -/
structure P001Resp where
  status : Nat
  ok : Bool
  url : Option Str
  msg : Option Str
deriving DecidableEq

/-- `part_001` line 108: the 200 `ok: true` response sent when the model
returned no usable output URL. -/
def p001NoOutputResp : P001Resp :=
  { status := 200, ok := true, url := none,
    msg := some (str "No output url from model") }

/-- `part_001` lines 104-110: classify `done.output`, and send the
no-output response when the resulting URL is falsy. -/
def p001OutBranch (out : JsOut) : P001Resp :=
  match v1Classify out with
  | some u =>
    if u = [] then p001NoOutputResp
    else { status := 200, ok := true, url := some u, msg := none }
  | none => p001NoOutputResp

/-- A request body with every field absent: no operation tag, no prompt,
no base (B) image under any alias, no reference (A) image. -/
def emptyBody : Body :=
  { op := none, prompt := none, negative := none, ref := none,
    image_base64 := none, image := none, image_b64 := none, b64 := none,
    params := none }

/-- `body` with `params.strength` set to `s` (a numeric strength input). -/
def setStrength (body : Body) (s : ℚ) : Body :=
  { body with params := some { body.params.getD emptyParams with strength := some s } }

/-- A request carrying only a prompt and a numeric strength value. -/
def bodyStrength (q : ℚ) : Body :=
  setStrength { emptyBody with prompt := some (str "red car") } q

/-- A request tagged `qa-replace` with no reference image. -/
def bodyReplaceNoRef : Body := { emptyBody with op := some (str "qa-replace") }

/-- A request tagged `qa-useb` with no B image. -/
def bodyUseBNoB : Body := { emptyBody with op := some (str "qa-useb") }

/-- A poll response that is still running. -/
def predRunning : PredResp :=
  { status := .running, output := .nullv, error := none, id := str "p1" }

/-- A poll response with terminal status `failed` and an error detail. -/
def predFailedBoom : PredResp :=
  { status := .failed, output := .nullv, error := some (str "boom"), id := str "p1" }

/-- A poll response that succeeded with a null output. -/
def predSucceededNull : PredResp :=
  { status := .succeeded, output := .nullv, error := none, id := str "p1" }

/-- An upstream whose create call fails with HTTP 500. -/
def upCreateFail : V1Up :=
  { createOk := false, createStatus := 500, getUrl := none,
    poll := fun _ => predRunning }

/-- An upstream that accepts the job and reports immediate success with a
null output. -/
def upSucceedNull : V1Up :=
  { createOk := true, createStatus := 201, getUrl := some (str "u"),
    poll := fun _ => predSucceededNull }

/-- An upstream that accepts the job but whose polled status never leaves
`running`. -/
def upAllRunning : V1Up :=
  { createOk := true, createStatus := 201, getUrl := some (str "u"),
    poll := fun _ => predRunning }

/-- A variant-2 request carrying a (truthy) `ref` image and nothing else. -/
def reqWithRef : Req2 :=
  { ref := some (str "img-url"), prompt := none, negative := none,
    fileMimetype := none, fileB64 := none }

/-- A variant-2 request with neither `ref` nor an uploaded file. -/
def reqNoImage : Req2 :=
  { ref := none, prompt := none, negative := none,
    fileMimetype := none, fileB64 := none }

theorem idxOfSub_some (pat : Str) :
    ∀ (s : Str) (i : Nat), idxOfSub pat s = some i →
      s = s.take i ++ pat ++ s.drop (i + pat.length) ∧
      ∀ pre suf : Str, s = pre ++ pat ++ suf → i ≤ pre.length := by
  intro s
  induction s with
  | nil =>
    intro i h
    by_cases hp : pat.isPrefixOf ([] : Str)
    · have hpat : pat = [] := by
        have := List.isPrefixOf_iff_prefix.mp hp
        simpa using List.prefix_nil.mp this
      simp [idxOfSub, hp] at h
      subst h
      simp [hpat]
    · simp [idxOfSub, hp] at h
  | cons c t ih =>
    intro i h
    by_cases hp : pat.isPrefixOf (c :: t)
    · simp [idxOfSub, hp] at h
      subst h
      obtain ⟨suf, hsuf⟩ := List.isPrefixOf_iff_prefix.mp hp
      constructor
      · conv_lhs => rw [← hsuf]
        simp [← hsuf, List.drop_left]
      · intro pre suf' _
        exact Nat.zero_le _
    · simp only [idxOfSub, if_neg hp, Option.map_eq_some'] at h
      obtain ⟨j, hj, hji⟩ := h
      obtain ⟨ih1, ih2⟩ := ih j hj
      subst hji
      constructor
      · have hdrop : (c :: t).drop (j + 1 + pat.length) = t.drop (j + pat.length) := by
          have : j + 1 + pat.length = (j + pat.length) + 1 := by omega
          simp [this]
        rw [hdrop]
        simpa using ih1
      · intro pre suf hps
        cases pre with
        | nil =>
          exfalso
          apply hp
          apply List.isPrefixOf_iff_prefix.mpr
          exact ⟨suf, by simpa using hps.symm⟩
        | cons c' pre' =>
          simp only [List.cons_append, List.cons.injEq] at hps
          have := ih2 pre' suf hps.2
          simp only [List.length_cons]
          omega

theorem idxOfSub_none (pat : Str) :
    ∀ s : Str, idxOfSub pat s = none → ∀ pre suf : Str, s ≠ pre ++ pat ++ suf := by
  intro s
  induction s with
  | nil =>
    intro h pre suf heq
    have hnil : pre = [] ∧ pat = [] ∧ suf = [] := by
      have := heq.symm
      simpa [List.append_eq_nil] using this
    have hp : pat.isPrefixOf ([] : Str) := by
      simp [hnil.2.1]
    simp [idxOfSub, hp] at h
  | cons c t ih =>
    intro h pre suf heq
    by_cases hp : pat.isPrefixOf (c :: t)
    · simp [idxOfSub, hp] at h
    · simp only [idxOfSub, if_neg hp, Option.map_eq_none'] at h
      cases pre with
      | nil =>
        apply hp
        apply List.isPrefixOf_iff_prefix.mpr
        exact ⟨suf, by simpa using heq.symm⟩
      | cons c' pre' =>
        simp only [List.cons_append, List.cons.injEq] at heq
        exact ih h pre' suf heq.2

theorem pollLoop_polls_le (term : PredResp → Bool) (poll : Nat → PredResp) :
    ∀ (fuel i : Nat), (pollLoop term poll i fuel).2.1 ≤ fuel := by
  intro fuel
  induction fuel with
  | zero => intro i; simp [pollLoop]
  | succ n ih =>
    intro i
    by_cases h : term (poll i)
    · simp [pollLoop, h]
    · simp only [pollLoop, if_neg h]
      have := ih (i + 1)
      omega

theorem pollLoop_sleep (term : PredResp → Bool) (poll : Nat → PredResp) :
    ∀ (fuel i : Nat),
      (pollLoop term poll i fuel).2.2 = 1500 * (pollLoop term poll i fuel).2.1 := by
  intro fuel
  induction fuel with
  | zero => intro i; simp [pollLoop]
  | succ n ih =>
    intro i
    by_cases h : term (poll i)
    · simp [pollLoop, h]
    · simp only [pollLoop, if_neg h]
      have := ih (i + 1)
      omega

theorem pollLoop_none (term : PredResp → Bool) (poll : Nat → PredResp) :
    ∀ (fuel i : Nat), (∀ j, i ≤ j → j < i + fuel → term (poll j) = false) →
      (pollLoop term poll i fuel).1 = none ∧ (pollLoop term poll i fuel).2.1 = fuel := by
  intro fuel
  induction fuel with
  | zero => intro i _; simp [pollLoop]
  | succ n ih =>
    intro i h
    have hi : term (poll i) = false := h i (Nat.le_refl i) (by omega)
    have hr := ih (i + 1) (fun j h1 h2 => h j (by omega) (by omega))
    simp only [pollLoop, hi, Bool.false_eq_true, if_false]
    exact ⟨hr.1, by omega⟩

theorem pollLoop_first (term : PredResp → Bool) (poll : Nat → PredResp) :
    ∀ (fuel i k : Nat), i ≤ k → k < i + fuel → term (poll k) = true →
      (∀ j, i ≤ j → j < k → term (poll j) = false) →
      (pollLoop term poll i fuel).1 = some (poll k) ∧
      (pollLoop term poll i fuel).2.1 = k - i + 1 := by
  intro fuel
  induction fuel with
  | zero => intro i k h1 h2; omega
  | succ n ih =>
    intro i k hik hkf hterm hmin
    by_cases hi : term (poll i) = true
    · have hki : k = i := by
        by_contra hne
        have hlt : i < k := by omega
        have := hmin i (Nat.le_refl i) hlt
        simp [hi] at this
      subst hki
      simp [pollLoop, hi]
    · have hik2 : i + 1 ≤ k := by
        rcases Nat.eq_or_lt_of_le hik with heq | hlt
        · exfalso; rw [← heq] at hterm; simp [hterm] at hi
        · omega
      have hr := ih (i + 1) k hik2 (by omega) hterm
        (fun j h1 h2 => hmin j (by omega) h2)
      have hif : term (poll i) = false := by simpa using hi
      simp only [pollLoop, hif, Bool.false_eq_true, if_false]
      exact ⟨hr.1, by omega⟩

/-- C9: for every input string to `stripDataHeader`: a string that starts
with `data:image/` and contains the `base64,` marker has everything up to
and including (the first occurrence of) the marker removed; a string that
starts with `data:image/` but contains no marker is returned unchanged;
and a string that does not start with `data:image/` passes through
unchanged. -/
theorem C9_stripDataHeader_spec (s : Str) :
    (¬ dataHeader <+: s → stripDataHeader s = s) ∧
    (dataHeader <+: s → (¬ ∃ pre suf : Str, s = pre ++ b64marker ++ suf) →
      stripDataHeader s = s) ∧
    (dataHeader <+: s → ∀ pre suf : Str, s = pre ++ b64marker ++ suf →
      ∃ pre0 : Str, s = pre0 ++ b64marker ++ stripDataHeader s ∧
        pre0.length ≤ pre.length) := by
  refine ⟨?_, ?_, ?_⟩
  · intro h
    have hp : ¬ dataHeader.isPrefixOf s :=
      fun hb => h (List.isPrefixOf_iff_prefix.mp hb)
    by_cases hnil : s = []
    · simp [stripDataHeader, hnil]
    · simp [stripDataHeader, hnil, hp]
  · intro h1 h2
    have hp : dataHeader.isPrefixOf s := List.isPrefixOf_iff_prefix.mpr h1
    have hnil : s ≠ [] := by
      intro he
      rw [he] at h1
      have : dataHeader = [] := List.prefix_nil.mp h1
      simp [dataHeader, str] at this
    cases hidx : idxOfSub b64marker s with
    | some i =>
      exfalso
      exact h2 ⟨s.take i, s.drop (i + b64marker.length),
        (idxOfSub_some b64marker s i hidx).1⟩
    | none => simp [stripDataHeader, hnil, hp, hidx]
  · intro h1 pre suf hdec
    have hp : dataHeader.isPrefixOf s := List.isPrefixOf_iff_prefix.mpr h1
    have hnil : s ≠ [] := by
      intro he
      rw [he] at h1
      have : dataHeader = [] := List.prefix_nil.mp h1
      simp [dataHeader, str] at this
    cases hidx : idxOfSub b64marker s with
    | none =>
      exact absurd hdec (idxOfSub_none b64marker s hidx pre suf)
    | some i =>
      obtain ⟨hsplit, hmin⟩ := idxOfSub_some b64marker s i hidx
      refine ⟨s.take i, ?_, ?_⟩
      · have hres : stripDataHeader s = s.drop (i + b64marker.length) := by
          simp [stripDataHeader, hnil, hp, hidx]
        rw [hres]
        exact hsplit
      · have := hmin pre suf hdec
        simp only [List.length_take]
        omega

/-- Witness for C9: each clause applied at a concrete string (no header;
header without marker; header with marker, whose first occurrence starts
after the 15-character prefix). -/
theorem C9_stripDataHeader_spec_witness :
    stripDataHeader (str "plain-payload") = str "plain-payload" ∧
    stripDataHeader (str "data:image/png;notbase64")
      = str "data:image/png;notbase64" ∧
    (∃ pre0 : Str, str "data:image/png;base64,QUJD"
        = pre0 ++ b64marker ++ stripDataHeader (str "data:image/png;base64,QUJD") ∧
      pre0.length ≤ (str "data:image/png;").length) := by
  refine ⟨?_, ?_, ?_⟩
  · exact (C9_stripDataHeader_spec (str "plain-payload")).1 (by decide)
  · refine (C9_stripDataHeader_spec (str "data:image/png;notbase64")).2.1
      (by decide) ?_
    rintro ⟨pre, suf, hd⟩
    exact idxOfSub_none b64marker (str "data:image/png;notbase64")
      (by decide) pre suf hd
  · exact (C9_stripDataHeader_spec (str "data:image/png;base64,QUJD")).2.2
      (by decide) (str "data:image/png;") (str "QUJD") (by decide)

/-- C1 (amended): the guidance scale computed by `buildFluxInputs` does not
depend on the strength input at all — it is the user-supplied guidance
value or a constant default — hence it is (trivially) monotonically
non-decreasing in strength; there is no strength-to-guidance map with
distinct minimum and maximum. -/
theorem C1_guidance_const_in_strength (body : Body) (s1 s2 : ℚ) :
    (buildFluxInputs (setStrength body s1)).inputs.guidance
      = (buildFluxInputs (setStrength body s2)).inputs.guidance ∧
    (s1 ≤ s2 →
      (buildFluxInputs (setStrength body s1)).inputs.guidance
        ≤ (buildFluxInputs (setStrength body s2)).inputs.guidance) := by
  have h : ∀ s : ℚ, (buildFluxInputs (setStrength body s)).inputs.guidance
      = (buildFluxInputs (setStrength body 0)).inputs.guidance := by
    intro s
    cases hp : body.params <;> simp [buildFluxInputs, setStrength, hp]
  have he := (h s1).trans (h s2).symm
  exact ⟨he, fun _ => le_of_eq he⟩

/-- Witness for C1's amended theorem at strengths 0 ≤ 1. -/
theorem C1_guidance_const_in_strength_witness :
    (buildFluxInputs (setStrength emptyBody 0)).inputs.guidance
      ≤ (buildFluxInputs (setStrength emptyBody 1)).inputs.guidance :=
  (C1_guidance_const_in_strength emptyBody 0 1).2 (by norm_num)

/-- Counterexample to C1 as stated: with no explicit guidance parameter,
strength 0.0 yields guidance 4.5 and strength 1.0 also yields 4.5 — not
the claimed mapped minimum 3 and maximum 8. -/
theorem C1_counterexample :
    (buildFluxInputs (bodyStrength 0)).inputs.guidance = 9 / 2 ∧
    (buildFluxInputs (bodyStrength 1)).inputs.guidance = 9 / 2 ∧
    ((9 : ℚ) / 2 ≠ 3) ∧ ((9 : ℚ) / 2 ≠ 8) :=
  ⟨rfl, rfl, by norm_num, by norm_num⟩

/-- C2 (amended): `buildFluxInputs` performs no clamping: the strength
input, whatever its value, is passed through unchanged to the upstream
inputs (except that operation `qa-useb` overrides it to 0), and no
guidance scale is computed from it. -/
theorem C2_strength_not_clamped (body : Body) (s : ℚ) :
    (jsToLower (body.op.getD []) ≠ str "qa-useb" →
      (buildFluxInputs (setStrength body s)).inputs.strength = s) ∧
    (jsToLower (body.op.getD []) = str "qa-useb" →
      (buildFluxInputs (setStrength body s)).inputs.strength = 0) := by
  constructor <;> intro h <;> cases hp : body.params <;>
    simp [buildFluxInputs, setStrength, hp, h]

/-- Witness for C2's amended theorem: strength 5 (outside [0,1]) passes
through unclamped on a default request, and is overridden to 0 under
`qa-useb`. -/
theorem C2_strength_not_clamped_witness :
    (buildFluxInputs (setStrength emptyBody 5)).inputs.strength = 5 ∧
    (buildFluxInputs (setStrength bodyUseBNoB 5)).inputs.strength = 0 :=
  ⟨(C2_strength_not_clamped emptyBody 5).1 (by decide),
   (C2_strength_not_clamped bodyUseBNoB 5).2 (by decide)⟩

/-- Counterexample to C2 as stated: strength 3/2 lies outside [0,1] and is
not clamped to the nearest bound 1 — the normalizer forwards 3/2 as is. -/
theorem C2_counterexample :
    (buildFluxInputs (bodyStrength (3 / 2))).inputs.strength = 3 / 2 ∧
    ¬ ((3 : ℚ) / 2 ≤ 1) :=
  ⟨rfl, by norm_num⟩

/-- C7 (amended): the builder concatenates no instruction fragments — the
guidance text sent upstream is exactly the user-supplied prompt (empty when
absent), and variant 1's negative prompt is the user's text alone; however
`part_001` substitutes a fixed synthesized default negative string whenever
the user supplies none. -/
theorem C7_prompt_passthrough (body : Body) (n : Str) :
    (buildFluxInputs body).inputs.prompt = body.prompt.getD [] ∧
    (buildFluxInputs body).inputs.negative_prompt
      = (if body.negative.getD [] = [] then none
         else some (body.negative.getD [])) ∧
    p001Negative (some n) = n ∧
    p001Negative none = p001DefaultNegative := by
  refine ⟨?_, ?_, rfl, rfl⟩ <;> simp [buildFluxInputs]

/-- Counterexample to C7 as stated: the guidance text for a plain request
is exactly the user text `red car` — no keep-background / preserve-subject
/ preserve-layout fragments are prepended — and `part_001` builds a
non-empty negative prompt out of synthesized text when the user supplied
none at all. -/
theorem C7_counterexample :
    (buildFluxInputs (bodyStrength 0)).inputs.prompt = str "red car" ∧
    p001Negative none = p001DefaultNegative ∧
    p001Negative none ≠ [] := by
  refine ⟨?_, rfl, by decide⟩
  decide

/-- C4 (amended): variant 2 attempts SeedEdit 3.0 first and Flux Schnell
second, in that fixed order; it stops at the first attempt that completes
without throwing (even when that attempt's result is empty); an exception
in one attempt does not abort the remaining candidate; with both of the
two candidates throwing, exactly 2 attempts are made, and with the first
completing, exactly 1. -/
theorem C4_fallback_order (token : Str) (req : Req2) (up : Gen2Up)
    (htok : token ≠ []) (img : Str) (himg : v2InputImage req = some img) :
    (∀ out, up.seededit = .ok out →
      generateV2 token req up
        = (v2SuccessResp (str "seededit-3.0") (firstOut out), 1)) ∧
    (∀ e out, up.seededit = .exn e → up.flux = .ok out →
      generateV2 token req up
        = (v2SuccessResp (str "flux-schnell") (firstOut out), 2)) ∧
    (∀ e1 e2, up.seededit = .exn e1 → up.flux = .exn e2 →
      generateV2 token req up = (v2AllFailedResp, 2)) := by
  refine ⟨?_, ?_, ?_⟩
  · intro out h
    simp [generateV2, htok, himg, h]
  · intro e out h1 h2
    simp [generateV2, htok, himg, h1, h2]
  · intro e1 e2 h1 h2
    simp [generateV2, htok, himg, h1, h2]

/-- Witness for C4's amended theorem: each of the three orderings at a
concrete token, request and upstream behaviour. -/
theorem C4_fallback_order_witness :
    generateV2 (str "t") reqWithRef
        { seededit := .ok (.strv (str "u")), flux := .ok (.strv (str "v")) }
      = (v2SuccessResp (str "seededit-3.0") (some (str "u")), 1) ∧
    generateV2 (str "t") reqWithRef
        { seededit := .exn (str "e"), flux := .ok (.strv (str "v")) }
      = (v2SuccessResp (str "flux-schnell") (some (str "v")), 2) ∧
    generateV2 (str "t") reqWithRef
        { seededit := .exn (str "e1"), flux := .exn (str "e2") }
      = (v2AllFailedResp, 2) :=
  ⟨(C4_fallback_order (str "t") reqWithRef _ (by decide) (str "img-url")
      (by decide)).1 (.strv (str "u")) rfl,
   (C4_fallback_order (str "t") reqWithRef _ (by decide) (str "img-url")
      (by decide)).2.1 (str "e") (.strv (str "v")) rfl rfl,
   (C4_fallback_order (str "t") reqWithRef _ (by decide) (str "img-url")
      (by decide)).2.2 (str "e1") (str "e2") rfl rfl⟩

/-- Counterexample to C4 as stated: when SeedEdit completes with an empty
array (no image at all) while Flux would return a usable image, the
handler still stops after exactly 1 attempt and replies ok with no image —
it does not continue to the candidate with the non-empty result. -/
theorem C4_counterexample :
    (generateV2 (str "t") reqWithRef
        { seededit := .ok (.arr []), flux := .ok (.strv (str "u")) }).2 = 1 ∧
    (generateV2 (str "t") reqWithRef
        { seededit := .ok (.arr []), flux := .ok (.strv (str "u")) }).1.image
      = none ∧
    (generateV2 (str "t") reqWithRef
        { seededit := .ok (.arr []), flux := .ok (.strv (str "u")) }).1.ok
      = true := by
  decide

/-- C6 (amended): when both fallback engines throw, variant 2 responds
with HTTP 422 and a fixed "All engines failed" message; the last observed
error's detail is not included in the response (it is only logged). -/
theorem C6_all_failed_fixed_message (token : Str) (req : Req2) (up : Gen2Up)
    (htok : token ≠ []) (img : Str) (himg : v2InputImage req = some img)
    (e1 e2 : Str) (h1 : up.seededit = .exn e1) (h2 : up.flux = .exn e2) :
    generateV2 token req up = (v2AllFailedResp, 2) ∧
    v2AllFailedResp.status = 422 ∧
    v2AllFailedResp.msg = some v2AllFailedMsg := by
  refine ⟨?_, rfl, rfl⟩
  simp [generateV2, htok, himg, h1, h2]

/-- Witness for C6's amended theorem at concrete error details. -/
theorem C6_all_failed_fixed_message_witness :
    generateV2 (str "t") reqWithRef
        { seededit := .exn (str "eA"), flux := .exn (str "eB") }
      = (v2AllFailedResp, 2) :=
  (C6_all_failed_fixed_message (str "t") reqWithRef _ (by decide)
    (str "img-url") (by decide) (str "eA") (str "eB") rfl rfl).1

/-- Counterexample to C6 as stated: the 422 body is the same fixed record
whatever the errors were — the last observed error detail ("flux exploded")
is not populated anywhere in it. -/
theorem C6_counterexample :
    (generateV2 (str "t") reqWithRef
        { seededit := .exn (str "eA"), flux := .exn (str "flux exploded") }).1
      = v2AllFailedResp ∧
    (generateV2 (str "t") reqWithRef
        { seededit := .exn (str "eB"), flux := .exn (str "other error") }).1
      = v2AllFailedResp ∧
    v2AllFailedResp.msg = some v2AllFailedMsg ∧
    v2AllFailedMsg ≠ str "flux exploded" := by
  decide

/-- C8: in `server.js`, validation failures (missing required image for the
operation) and a missing upstream credential are answered before any
network call: in each such case the handler makes 0 upstream calls and
returns the 400 or 401 response, in both variants. -/
theorem C8_no_network_before_validation (token : Str) (body : Body)
    (up : V1Up) (req : Req2) (up2 : Gen2Up) :
    (v1GuardA (buildFluxInputs body) = true →
      (generateV1 token body up).2 = 0 ∧
      (generateV1 token body up).1.status = 400) ∧
    (v1GuardB (buildFluxInputs body) = true →
      (generateV1 token body up).2 = 0 ∧
      (generateV1 token body up).1.status = 400) ∧
    (v1GuardA (buildFluxInputs body) = false →
      v1GuardB (buildFluxInputs body) = false → token = [] →
      (generateV1 token body up).2 = 0 ∧
      (generateV1 token body up).1.status = 401) ∧
    (token = [] →
      (generateV2 token req up2).2 = 0 ∧
      (generateV2 token req up2).1.status = 401) ∧
    (token ≠ [] → v2InputImage req = none →
      (generateV2 token req up2).2 = 0 ∧
      (generateV2 token req up2).1.status = 400) := by
  refine ⟨?_, ?_, ?_, ?_, ?_⟩
  · intro hA
    simp [generateV1, hA, v1MissingAResp]
  · intro hB
    by_cases hA : v1GuardA (buildFluxInputs body) = true
    · simp [generateV1, hA, v1MissingAResp]
    · simp only [Bool.not_eq_true] at hA
      simp [generateV1, hA, hB, v1MissingBResp]
  · intro hA hB htok
    simp [generateV1, hA, hB, htok, v1TokenMissingResp]
  · intro htok
    simp [generateV2, htok, v2TokenResp]
  · intro htok himg
    simp [generateV2, htok, himg, v2MissingImageResp]

/-- Witness for C8: each guard applied at a concrete request — an AB
operation without A, `qa-useb` without B, a missing token in both
variants, and a variant-2 request without any input image. -/
theorem C8_no_network_before_validation_witness :
    (generateV1 (str "t") bodyReplaceNoRef upCreateFail).2 = 0 ∧
    (generateV1 (str "t") bodyUseBNoB upCreateFail).2 = 0 ∧
    (generateV1 [] emptyBody upCreateFail).2 = 0 ∧
    (generateV2 [] reqNoImage { seededit := .exn [], flux := .exn [] }).2 = 0 ∧
    (generateV2 (str "t") reqNoImage { seededit := .exn [], flux := .exn [] }).2 = 0 :=
  ⟨((C8_no_network_before_validation (str "t") bodyReplaceNoRef upCreateFail
      reqNoImage { seededit := .exn [], flux := .exn [] }).1 (by decide)).1,
   ((C8_no_network_before_validation (str "t") bodyUseBNoB upCreateFail
      reqNoImage { seededit := .exn [], flux := .exn [] }).2.1 (by decide)).1,
   ((C8_no_network_before_validation [] emptyBody upCreateFail
      reqNoImage { seededit := .exn [], flux := .exn [] }).2.2.1 (by decide)
      (by decide) rfl).1,
   ((C8_no_network_before_validation [] emptyBody upCreateFail
      reqNoImage { seededit := .exn [], flux := .exn [] }).2.2.2.1 rfl).1,
   ((C8_no_network_before_validation (str "t") emptyBody upCreateFail
      reqNoImage { seededit := .exn [], flux := .exn [] }).2.2.2.2 (by decide)
      (by decide)).1⟩

/-- C3 (amended): rejection of image-less requests is operation-specific.
Variant 1 rejects with 400 before any network call only when the operation
requires the missing image (`qa-replace`/`qa-overlay`/`qa-insert` without
A, `qa-useb` without B); a default-operation request with no images at all
proceeds to upstream submission as text-to-image.  Variant 2 always
rejects a request without an input image with 400 before its upstream
call. -/
theorem C3_image_rejection_by_operation (token : Str) (body : Body)
    (up : V1Up) (req : Req2) (up2 : Gen2Up) :
    (v1GuardA (buildFluxInputs body) = true →
      generateV1 token body up = (v1MissingAResp, 0)) ∧
    (v1GuardA (buildFluxInputs body) = false →
      v1GuardB (buildFluxInputs body) = true →
      generateV1 token body up = (v1MissingBResp, 0)) ∧
    (token ≠ [] → v2InputImage req = none →
      generateV2 token req up2 = (v2MissingImageResp, 0)) ∧
    v1MissingAResp.status = 400 ∧ v1MissingBResp.status = 400 ∧
    v2MissingImageResp.status = 400 := by
  refine ⟨?_, ?_, ?_, rfl, rfl, rfl⟩
  · intro hA
    simp [generateV1, hA]
  · intro hA hB
    simp [generateV1, hA, hB]
  · intro htok himg
    simp [generateV2, htok, himg]

/-- Witness for C3's amended theorem at concrete requests. -/
theorem C3_image_rejection_by_operation_witness :
    generateV1 (str "t") bodyReplaceNoRef upCreateFail = (v1MissingAResp, 0) ∧
    generateV1 (str "t") bodyUseBNoB upCreateFail = (v1MissingBResp, 0) ∧
    generateV2 (str "t") reqNoImage { seededit := .exn [], flux := .exn [] }
      = (v2MissingImageResp, 0) :=
  ⟨(C3_image_rejection_by_operation (str "t") bodyReplaceNoRef upCreateFail
      reqNoImage { seededit := .exn [], flux := .exn [] }).1 (by decide),
   (C3_image_rejection_by_operation (str "t") bodyUseBNoB upCreateFail
      reqNoImage { seededit := .exn [], flux := .exn [] }).2.1 (by decide)
      (by decide),
   (C3_image_rejection_by_operation (str "t") emptyBody upCreateFail
      reqNoImage { seededit := .exn [], flux := .exn [] }).2.2.1 (by decide)
      (by decide)⟩

/-- Counterexample to C3 as stated: a variant-1 request with the default
(empty) operation and neither a base image (no B alias set) nor a
secondary image (no ref) passes both guards and the handler proceeds to
the upstream create call — 1 network call is made and the response is the
upstream error, not a 400 validation rejection. -/
theorem C3_counterexample :
    (pickB emptyBody.image_base64 emptyBody.image emptyBody.image_b64
      emptyBody.b64 = []) ∧
    emptyBody.ref = none ∧
    (generateV1 (str "t") emptyBody upCreateFail).2 = 1 ∧
    (generateV1 (str "t") emptyBody upCreateFail).1.status = 500 := by
  decide

/-- C10: when the polled job reaches `succeeded` but its output is neither
a non-empty array nor a string, variant 1's handler still responds 200
with `ok: true` and `image_url` null, and `part_001`'s handler likewise
sends its 200 `ok: true` no-output response rather than an error. -/
theorem C10_succeeded_empty_output (token : Str) (body : Body) (up : V1Up)
    (u : Str) (i : Nat)
    (hA : v1GuardA (buildFluxInputs body) = false)
    (hB : v1GuardB (buildFluxInputs body) = false)
    (htok : token ≠ [])
    (hok : up.createOk = true)
    (hurl : up.getUrl = some u)
    (hi : i < 80)
    (hbefore : ∀ j, j < i → isTerminalStatus (up.poll j).status = false)
    (hst : (up.poll i).status = JStatus.succeeded)
    (hout : v1Classify (up.poll i).output = none) :
    (generateV1 token body up).1.status = 200 ∧
    (generateV1 token body up).1.ok = true ∧
    (generateV1 token body up).1.image_url = none ∧
    (∀ out : JsOut, v1Classify out = none → p001OutBranch out = p001NoOutputResp) := by
  have h1 := pollLoop_first (fun r => isTerminalStatus r.status) up.poll 80 0 i
    (Nat.zero_le i) (by omega) (by simp [hst, isTerminalStatus])
    (fun j _ hj2 => hbefore j hj2)
  obtain ⟨ws, hw⟩ : ∃ ws, waitPrediction up.poll = (some (up.poll i), i + 1, ws) := by
    refine ⟨(waitPrediction up.poll).2.2, ?_⟩
    have h2 : (waitPrediction up.poll).1 = some (up.poll i) := h1.1
    have h3 : (waitPrediction up.poll).2.1 = i + 1 := by simpa using h1.2
    conv_lhs => rw [show waitPrediction up.poll
      = ((waitPrediction up.poll).1, (waitPrediction up.poll).2.1,
         (waitPrediction up.poll).2.2) from rfl]
    rw [h2, h3]
  have hgen : generateV1 token body up = (v1SuccessResp (up.poll i), 1 + (i + 1)) := by
    simp only [generateV1, hA, hB, Bool.false_eq_true, if_false, if_neg htok,
      hok, Bool.not_true, hurl, hw, hst]
    simp
  refine ⟨?_, ?_, ?_, ?_⟩
  · rw [hgen]; rfl
  · rw [hgen]; rfl
  · rw [hgen]
    simp [v1SuccessResp, hout]
  · intro out h
    simp [p001OutBranch, h]

/-- Witness for C10: a concrete request whose job succeeds immediately
with a null output — the handler answers 200, ok, `image_url` null. -/
theorem C10_succeeded_empty_output_witness :
    (generateV1 (str "t") emptyBody upSucceedNull).1.status = 200 ∧
    (generateV1 (str "t") emptyBody upSucceedNull).1.ok = true ∧
    (generateV1 (str "t") emptyBody upSucceedNull).1.image_url = none ∧
    p001OutBranch JsOut.nullv = p001NoOutputResp := by
  have h := C10_succeeded_empty_output (str "t") emptyBody upSucceedNull
    (str "u") 0 (by decide) (by decide) (by decide) rfl rfl (by omega)
    (fun j hj => absurd hj (by omega)) rfl rfl
  exact ⟨h.1, h.2.1, h.2.2.1, h.2.2.2 JsOut.nullv rfl⟩

/-- C5 (amended): `server.js`'s `waitPrediction` polls at most 80 times at
a fixed 1500 ms interval, returns at the first terminal status
(succeeded/failed/canceled), and on exhaustion the handler answers with
the 504 timeout error; `part_000`'s loop however treats only `succeeded`
as terminal — with a never-succeeding status it polls all 80 times and its
handler answers 200 with `error: true`, not 504. -/
theorem C5_polling_bounded (token : Str) (body : Body) (up : V1Up)
    (u : Str) (poll : Nat → PredResp) :
    (waitPrediction poll).2.1 ≤ 80 ∧
    (waitPrediction poll).2.2 = 1500 * (waitPrediction poll).2.1 ∧
    (∀ i, i < 80 → isTerminalStatus (poll i).status = true →
      (∀ j, j < i → isTerminalStatus (poll j).status = false) →
      (waitPrediction poll).1 = some (poll i) ∧
      (waitPrediction poll).2.1 = i + 1) ∧
    ((∀ i, i < 80 → isTerminalStatus (poll i).status = false) →
      (waitPrediction poll).1 = none ∧ (waitPrediction poll).2.1 = 80) ∧
    (v1GuardA (buildFluxInputs body) = false →
      v1GuardB (buildFluxInputs body) = false → token ≠ [] →
      up.createOk = true → up.getUrl = some u →
      (∀ i, i < 80 → isTerminalStatus (up.poll i).status = false) →
      generateV1 token body up = (v1TimeoutResp, 81) ∧
      v1TimeoutResp.status = 504) ∧
    ((∀ i, i < 80 → (poll i).status ≠ JStatus.succeeded) →
      p000generate poll
        = ({ status := 200, image_url := none, error := true }, 80)) := by
  refine ⟨?_, ?_, ?_, ?_, ?_, ?_⟩
  · exact pollLoop_polls_le _ poll 80 0
  · exact pollLoop_sleep _ poll 80 0
  · intro i hi hterm hmin
    have h1 := pollLoop_first (fun r => isTerminalStatus r.status) poll 80 0 i
      (Nat.zero_le i) (by omega) hterm (fun j _ hj2 => hmin j hj2)
    exact ⟨h1.1, by simpa using h1.2⟩
  · intro h
    exact pollLoop_none (fun r => isTerminalStatus r.status) poll 80 0
      (fun j _ hj2 => h j (by omega))
  · intro hA hB htok hok hurl hnone
    have h1 := pollLoop_none (fun r => isTerminalStatus r.status) up.poll 80 0
      (fun j _ hj2 => hnone j (by omega))
    obtain ⟨ws, hw⟩ : ∃ ws, waitPrediction up.poll = (none, 80, ws) := by
      refine ⟨(waitPrediction up.poll).2.2, ?_⟩
      have h2 : (waitPrediction up.poll).1 = none := h1.1
      have h3 : (waitPrediction up.poll).2.1 = 80 := h1.2
      conv_lhs => rw [show waitPrediction up.poll
        = ((waitPrediction up.poll).1, (waitPrediction up.poll).2.1,
           (waitPrediction up.poll).2.2) from rfl]
      rw [h2, h3]
    refine ⟨?_, rfl⟩
    simp only [generateV1, hA, hB, Bool.false_eq_true, if_false, if_neg htok,
      hok, Bool.not_true, hurl, hw]
  · intro h
    have h1 := pollLoop_none (fun r => r.status == JStatus.succeeded) poll 80 0
      (fun j _ hj2 => by
        have := h j (by omega)
        simpa using this)
    obtain ⟨ws, hw⟩ : ∃ ws, p000wait poll = (none, 80, ws) := by
      refine ⟨(p000wait poll).2.2, ?_⟩
      have h2 : (p000wait poll).1 = none := h1.1
      have h3 : (p000wait poll).2.1 = 80 := h1.2
      conv_lhs => rw [show p000wait poll
        = ((p000wait poll).1, (p000wait poll).2.1, (p000wait poll).2.2) from rfl]
      rw [h2, h3]
    simp [p000generate, hw]

/-- Witness for C5's amended theorem: immediate success is returned after
1 poll; a never-terminal job exhausts exactly 80 polls and variant 1
answers 504 while `part_000` (never-succeeding `failed` status) answers
its 200 error response. -/
theorem C5_polling_bounded_witness :
    (waitPrediction (fun _ => predSucceededNull)).1 = some predSucceededNull ∧
    (waitPrediction (fun _ => predRunning)).1 = none ∧
    (waitPrediction (fun _ => predRunning)).2.1 = 80 ∧
    generateV1 (str "t") emptyBody upAllRunning = (v1TimeoutResp, 81) ∧
    p000generate (fun _ => predFailedBoom)
      = ({ status := 200, image_url := none, error := true }, 80) := by
  refine ⟨?_, ?_, ?_, ?_, ?_⟩
  · exact ((C5_polling_bounded (str "t") emptyBody upAllRunning (str "u")
      (fun _ => predSucceededNull)).2.2.1 0 (by omega) (by decide)
      (fun j hj => absurd hj (by omega))).1
  · exact ((C5_polling_bounded (str "t") emptyBody upAllRunning (str "u")
      (fun _ => predRunning)).2.2.2.1 (fun i _ => by decide)).1
  · exact ((C5_polling_bounded (str "t") emptyBody upAllRunning (str "u")
      (fun _ => predRunning)).2.2.2.1 (fun i _ => by decide)).2
  · exact ((C5_polling_bounded (str "t") emptyBody upAllRunning (str "u")
      (fun _ => predRunning)).2.2.2.2.1 (by decide) (by decide) (by decide)
      rfl rfl (fun i _ => rfl)).1
  · exact (C5_polling_bounded (str "t") emptyBody upAllRunning (str "u")
      (fun _ => predFailedBoom)).2.2.2.2.2 (fun i _ => by decide)

/-- Counterexample to C5 as stated: in `part_000` a job whose status is
the terminal `failed` at every poll is not returned at the first terminal
status — all 80 polls are made — and the exhausted loop yields a 200
response with `error: true`, not an UpstreamTimeout 504. -/
theorem C5_counterexample :
    isTerminalStatus predFailedBoom.status = true ∧
    (p000wait (fun _ => predFailedBoom)).2.1 = 80 ∧
    (p000wait (fun _ => predFailedBoom)).1 = none ∧
    p000generate (fun _ => predFailedBoom)
      = ({ status := 200, image_url := none, error := true }, 80) ∧
    (200 : Nat) ≠ 504 := by
  decide
